import Mathlib

/-!
Verification development for the agentweave SDK.

Each Python module relevant to the verified properties is shallowly embedded
as executable Lean definitions: pure functions become Lean functions, stateful
methods become explicit state-passing functions, fallible methods return
`Except`, wall-clock instants are modelled as rationals, and external effects
(the TLS transport, the policy engine, the random number generator) are
modelled as explicit inputs. Section comments name the source file and lines
each definition is translated from.
-/

/-! ### Generic string helpers

Substring containment over the character lists of strings, used to settle
statements of the form "the reason contains ...". -/

/-- True when `needle` occurs at the start of `hay` (character-list version). -/
def charsHavePre : List Char → List Char → Bool
  | [], _ => true
  | _ :: _, [] => false
  | a :: as, b :: bs => a == b && charsHavePre as bs

/-- True when `needle` occurs anywhere inside `hay`. -/
def charsContain (needle : List Char) : List Char → Bool
  | [] => charsHavePre needle []
  | c :: t => charsHavePre needle (c :: t) || charsContain needle t

/-- True when string `sub` occurs as a contiguous substring of `s`. -/
def containsSub (s sub : String) : Bool :=
  charsContain sub.data s.data

/-! ## Task lifecycle — `src/agentweave/comms/a2a/task.py`

`TaskState`, `Task.update_state` (lines 90-101), `TaskManager.update_task`
(lines 285-318). The task table `Dict[str, Task]` is modelled as an
association list. Fields of `Task` that no modelled operation reads or
writes (`payload`, `messages`, `artifacts`, `created_at`, `metadata`) are
elided; `result` values (Python `Any`) are modelled as strings. -/

namespace A2ATask

/-- Task lifecycle states, task.py lines 18-25. -/
inductive TaskState where
  | pending
  | running
  | completed
  | failed
  | cancelled
deriving DecidableEq, Repr

/-- String value of each state (the `str`-enum value in task.py). -/
def TaskState.value : TaskState → String
  | .pending => "pending"
  | .running => "running"
  | .completed => "completed"
  | .failed => "failed"
  | .cancelled => "cancelled"

/-- `TaskState.is_terminal`, task.py lines 27-29. -/
def TaskState.is_terminal : TaskState → Bool
  | .completed => true
  | .failed => true
  | .cancelled => true
  | _ => false

/-- The modelled fields of an A2A `Task` (task.py lines 55-85). -/
structure Task where
  id : String
  type : String
  state : TaskState
  result : Option String
  error : Option String
  updated_at : ℚ
deriving DecidableEq, Repr

/-- `Task.is_terminal`, task.py lines 159-161. -/
def Task.is_terminal (t : Task) : Bool :=
  t.state.is_terminal

/-- Python truthiness of the optional `error` argument: `if error:` is taken
for a non-`None`, non-empty string. -/
def errTruthy : Option String → Bool
  | none => false
  | some e => !e.isEmpty

/-- `Task.update_state`, task.py lines 90-101: assigns the new state
unconditionally, bumps `updated_at`, and overwrites `error` when the
argument is truthy. -/
def Task.update_state (t : Task) (new_state : TaskState) (error : Option String)
    (now : ℚ) : Task :=
  { t with
    state := new_state
    updated_at := now
    error := if errTruthy error then error else t.error }

/-- The serialized fields of `Task.to_dict` (task.py lines 192-225) that the
verified properties speak about; `state` is serialized as its string value. -/
structure TaskDict where
  id : String
  type : String
  state : String
  result : Option String
  error : Option String
  updated_at : ℚ
deriving DecidableEq, Repr

/-- `Task.to_dict`, task.py lines 192-225, restricted to the modelled fields. -/
def Task.to_dict (t : Task) : TaskDict :=
  { id := t.id
    type := t.type
    state := t.state.value
    result := t.result
    error := t.error
    updated_at := t.updated_at }

/-- The task table of `TaskManager` (task.py line 237), an association list
keyed by task id. The per-task locks and completion events carry no data
relevant to the verified properties and are elided. -/
structure TaskManager where
  tasks : List (String × Task)
deriving Repr

/-- Replace the binding of key `k` by `v` in an association list. -/
def updateAssoc (l : List (String × Task)) (k : String) (v : Task) :
    List (String × Task) :=
  l.map (fun p => if p.1 = k then (k, v) else p)

/-- Look a task up by id (`self._tasks.get(task_id)`). -/
def TaskManager.get_task (m : TaskManager) (task_id : String) : Option Task :=
  m.tasks.lookup task_id

/-- `TaskManager.update_task`, task.py lines 285-318. When the task exists:
`if state:` applies `update_state` (every `TaskState` value is truthy),
`if result is not None:` overwrites `result`. There is no check that the
current state is non-terminal. Returns the updated task and the new table. -/
def TaskManager.update_task (m : TaskManager) (task_id : String)
    (state : Option TaskState) (result : Option String) (error : Option String)
    (now : ℚ) : Option Task × TaskManager :=
  match m.tasks.lookup task_id with
  | none => (none, m)
  | some task =>
    let task1 := match state with
      | some s => task.update_state s error now
      | none => task
    let task2 := match result with
      | some r => { task1 with result := some r }
      | none => task1
    (some task2, { tasks := updateAssoc m.tasks task_id task2 })

end A2ATask

/-! ## A2A server — `src/agentweave/comms/a2a/server.py`

`A2AServer._handle_task_cancel`, lines 271-315, over the task manager from
the previous section. JSON-RPC responses are modelled by the two shapes the
helpers `_jsonrpc_success` / `_jsonrpc_error` produce, with the success
result restricted to the task serialization. -/

namespace A2AServer

open A2ATask

/-- A JSON-RPC response as produced by `_jsonrpc_success` (task dict result)
or `_jsonrpc_error` (code and message). -/
inductive RpcResponse where
  | success (result : TaskDict) (id : String)
  | rpcError (code : Int) (message : String) (id : Option String)
deriving DecidableEq, Repr

/-- `A2AServer._handle_task_cancel`, server.py lines 271-315. The
`task_id` parameter is absent, or present with a possibly empty string
(`if not task_id:` rejects both). A non-terminal task is transitioned to
`cancelled` through the task manager; a terminal one is left alone; the
task is then re-read and serialized into a success response. The final
`match` arm for a vanished task is unreachable (updating cannot remove the
key) and mirrors the `AttributeError` the source would hit there. -/
def handle_task_cancel (m : TaskManager) (params_task_id : Option String)
    (request_id : String) (now : ℚ) : RpcResponse × TaskManager :=
  match params_task_id with
  | none =>
    (.rpcError (-32602) "Missing required parameter: task_id" (some request_id), m)
  | some tid =>
    if tid.isEmpty then
      (.rpcError (-32602) "Missing required parameter: task_id" (some request_id), m)
    else
      match m.tasks.lookup tid with
      | none => (.rpcError (-32000) ("Task not found: " ++ tid) (some request_id), m)
      | some task =>
        let m' :=
          if task.is_terminal then m
          else (m.update_task tid (some .cancelled) none none now).2
        match m'.tasks.lookup tid with
        | some task' => (.success task'.to_dict request_id, m')
        | none => (.rpcError (-32000) ("Task not found: " ++ tid) (some request_id), m')

end A2AServer

/-! ## Secure channel — `src/agentweave/transport/channel.py`

`SecureChannel._extract_spiffe_id_from_cert` (lines 153-184),
`SecureChannel._verify_peer_callback` (lines 186-212),
`SecureChannel._extract_trust_domain` (lines 258-268), and the request path
`_ensure_client` / `_create_ssl_context` / `request` (lines 214-375).

The peer certificate is modelled by its subject-alternative-name entries
(`none` when the extension is absent or the certificate fails to parse, in
which case `get_extension_for_oid` raises and extraction returns `None`).
The external collaborators of `request` are modelled as an explicit
environment: whether `get_svid_context` succeeds, the map from trust domain
to CA bundle held by the identity provider, the certificate the peer
presents during the TLS handshake, and the HTTP status the wire returns if
the transport-level exchange succeeds. `_create_ssl_context` fetches the CA
bundle for the expected peer's trust domain but only logs it (lines
244-250: "For now, we'll log that we have them"), and `_verify_peer_callback`
is defined yet never installed on the SSL context nor called from any other
code, so the request path never consults `peer_cert`. -/

namespace Channel

/-- One subject-alternative-name entry of an X.509 certificate. -/
inductive GeneralName where
  | uri (value : String)
  | dns (value : String)
  | other
deriving DecidableEq, Repr

/-- A peer certificate, reduced to its SAN entries; `san = none` models a
certificate without the extension (or one that fails to parse). -/
structure Certificate where
  san : Option (List GeneralName)
deriving DecidableEq, Repr

/-- `SecureChannel._extract_spiffe_id_from_cert`, channel.py lines 153-184:
the first SAN URI whose value starts with `spiffe://`, else `None`
(`uri.startswith("spiffe://")` is evaluated over the character list). -/
def extract_spiffe_id_from_cert (cert : Certificate) : Option String :=
  match cert.san with
  | none => none
  | some names =>
    names.findSome? (fun n =>
      match n with
      | .uri u => if charsHavePre "spiffe://".data u.data then some u else none
      | _ => none)

/-- The payload of `PeerVerificationError` (channel.py lines 77-86). -/
structure PeerVerificationError where
  expected_id : String
  actual_id : Option String
deriving DecidableEq, Repr

/-- `SecureChannel._verify_peer_callback`, channel.py lines 186-212: raises
`PeerVerificationError` unless the extracted peer SPIFFE ID equals the
expected one. -/
def verify_peer_callback (peer_spiffe_id : String) (cert : Certificate) :
    Except PeerVerificationError Unit :=
  let peer_id := extract_spiffe_id_from_cert cert
  if peer_id ≠ some peer_spiffe_id then
    .error { expected_id := peer_spiffe_id, actual_id := peer_id }
  else
    .ok ()

/-- `SecureChannel._extract_trust_domain`, channel.py lines 258-268: the
authority component of `spiffe://trust-domain/path`. -/
def extract_trust_domain (spiffe_id : String) : String :=
  let rest := (spiffe_id.drop "spiffe://".length).data
  String.mk (rest.takeWhile (fun c => c ≠ '/'))

/-- Failure modes of `SecureChannel.request`: the `RuntimeError`s raised by
`_create_ssl_context` and a transport-level HTTP error. -/
inductive ChannelError where
  | cannotCreateSslContext
  | cannotVerifyPeer
  | httpError
deriving DecidableEq, Repr

/-- External collaborators of a `SecureChannel.request` call. -/
structure ChannelEnv where
  svid_ctx_ok : Bool
  trust_bundles : String → Option (List String)
  peer_cert : Certificate
  wire_status : Option Nat

/-- `SecureChannel.request` together with `_ensure_client` and
`_create_ssl_context`, channel.py lines 214-375: obtain the SVID SSL
context (RuntimeError on failure), fetch the CA bundle for the expected
peer's trust domain (RuntimeError on failure; the bundle is then only
logged, never loaded into the context), then perform the HTTP exchange.
No step reads `env.peer_cert`. -/
def request (peer_spiffe_id : String) (env : ChannelEnv) : Except ChannelError Nat :=
  if !env.svid_ctx_ok then
    .error .cannotCreateSslContext
  else
    match env.trust_bundles (extract_trust_domain peer_spiffe_id) with
    | none => .error .cannotVerifyPeer
    | some _ =>
      match env.wire_status with
      | some status => .ok status
      | none => .error .httpError

end Channel

/-! ## Static mTLS provider — `src/agentweave/identity/mtls.py`

`StaticMTLSProvider.get_svid`, lines 156-176. The SVID is reduced to the
leaf certificate's `not_valid_after_utc` instant; provider state is whether
`initialize()` ran and the SVID it loaded. `get_svid` takes the current
instant as an explicit argument to make its (non-)dependence on the clock a
statement rather than an accident of the embedding. -/

namespace StaticMTLS

/-- The leaf certificate of an `X509Svid`, reduced to its expiry instant. -/
structure X509Svid where
  not_valid_after_utc : ℚ
deriving DecidableEq, Repr

/-- Provider state after construction: `initialized` and the loaded SVID. -/
structure ProviderState where
  initialized : Bool
  svid : Option X509Svid
deriving DecidableEq, Repr

/-- Failure modes surfaced by `get_svid` (`IdentityError` in mtls.py). -/
inductive IdentityFailure where
  | notInitialized
deriving DecidableEq, Repr

/-- `StaticMTLSProvider.get_svid`, mtls.py lines 156-176. After the
`_ensure_initialized` guard it evaluates the expiry check
`self._svid.leaf.not_valid_after_utc < self._svid.leaf.not_valid_after_utc`
(mtls.py line 170) — a comparison of the expiry instant with itself — and
logs a warning when it holds; it then returns the SVID unconditionally.
The returned flag records whether the warning fired. The `now` argument is
unused because the source never consults the clock here. -/
def get_svid (st : ProviderState) (now : ℚ) : Except IdentityFailure (X509Svid × Bool) :=
  if !st.initialized then
    .error .notInitialized
  else
    match st.svid with
    | none => .error .notInitialized
    | some svid =>
      let warned := decide (svid.not_valid_after_utc < svid.not_valid_after_utc)
      .ok (svid, warned)

end StaticMTLS

/-! ## OPA authorization provider — `src/agentweave/authz/opa.py`

`AuthzDecision` (authz/base.py lines 11-30), `DecisionCache.get` / `put`
(opa.py lines 106-148), `OPAProvider._default_decision` (lines 346-376),
`OPAProvider._audit_log` (lines 378-404) and `OPAProvider.check`
(lines 210-259).

The cache's `OrderedDict` is modelled as a list of entries in
least-recently-used-first order (`popitem(last=False)` drops the head,
`move_to_end` moves a key to the tail). `_make_key` hashes the string
`"caller:resource:action:contextstr"` with SHA-256; the digest step is
modelled as the keyed string itself, since only key equality matters here.
The outcome of the circuit-breaker-protected engine query is an explicit
input: a decision, a `CircuitBreakerError`, or another exception with its
message. Audit emission is modelled as the list of decisions passed to
`_audit_log`. -/

namespace OPA

/-- `AuthzDecision`, authz/base.py lines 11-30. -/
structure AuthzDecision where
  allowed : Bool
  reason : String
  policy_id : Option String
  audit_id : String
deriving DecidableEq, Repr

/-- `DecisionCache._make_key`, opa.py lines 100-104, with the SHA-256
digest modelled as the keyed string itself. -/
def make_key (caller_id resource action context_str : String) : String :=
  caller_id ++ ":" ++ resource ++ ":" ++ action ++ ":" ++ context_str

/-- Cache state: entries `(key, decision, inserted_at)` in LRU order
(head = least recently used). -/
structure CacheState where
  entries : List (String × AuthzDecision × ℚ)
deriving Repr

/-- Remove every entry with the given key. -/
def cacheErase (c : CacheState) (key : String) : CacheState :=
  { entries := c.entries.filter (fun e => e.1 ≠ key) }

/-- `OrderedDict.move_to_end`: move the entry with the given key to the
tail, keeping the others in order. -/
def cacheMoveToEnd (c : CacheState) (key : String) : CacheState :=
  match c.entries.find? (fun e => e.1 = key) with
  | none => c
  | some e => { entries := c.entries.filter (fun e' => e'.1 ≠ key) ++ [e] }

/-- `DecisionCache.get`, opa.py lines 106-130: on a present entry older
than the TTL, delete it and miss; on a fresh entry, move it to the tail
and hit. Returns the looked-up decision and the mutated cache. -/
def cacheGet (c : CacheState) (key : String) (now ttl : ℚ) :
    Option AuthzDecision × CacheState :=
  match c.entries.find? (fun e => e.1 = key) with
  | none => (none, c)
  | some e =>
    if now - e.2.2 > ttl then
      (none, cacheErase c key)
    else
      (some e.2.1, cacheMoveToEnd c key)

/-- `DecisionCache.put`, opa.py lines 132-148: insert (or overwrite) the
entry, move it to the tail, and evict the head when over `max_size`. -/
def cachePut (c : CacheState) (key : String) (d : AuthzDecision) (now : ℚ)
    (max_size : ℕ) : CacheState :=
  let inserted := (cacheErase c key).entries ++ [(key, d, now)]
  if max_size < inserted.length then
    { entries := inserted.tail }
  else
    { entries := inserted }

/-- Outcome of `self._circuit_breaker.call(self._query_opa, input_doc)` as
observed by `check`: a parsed decision, a `CircuitBreakerError`, or any
other exception with its message. -/
inductive EngineOutcome where
  | ok (d : AuthzDecision)
  | circuitOpen (msg : String)
  | failure (msg : String)
deriving Repr

/-- `OPAProvider._default_decision`, opa.py lines 346-376. The unused
identifier arguments are kept because the source takes them (it only logs
them). The `audit_id` input models the per-decision UUID generated in
`AuthzDecision.__post_init__`. -/
def default_decision (default_deny : Bool) (caller_id resource action : String)
    (error : String) (audit_id : String) : AuthzDecision :=
  if default_deny then
    { allowed := false
      reason := "OPA unavailable, default deny policy applied: " ++ error
      policy_id := some "default-deny"
      audit_id := audit_id }
  else
    { allowed := true
      reason := "OPA unavailable, default allow policy applied: " ++ error
      policy_id := some "default-allow"
      audit_id := audit_id }

/-- Result of one `OPAProvider.check` call: the returned decision, the
cache state afterwards, and the decisions passed to `_audit_log`. -/
structure CheckResult where
  decision : AuthzDecision
  cache : CacheState
  audit_events : List AuthzDecision

/-- `OPAProvider.check`, opa.py lines 210-259: cache lookup; on a miss,
query the engine through the circuit breaker; on success cache the
decision and emit an audit log entry; on `CircuitBreakerError` or any
other exception return `_default_decision` without caching or auditing. -/
def check (default_deny : Bool) (ttl : ℚ) (max_size : ℕ) (c : CacheState)
    (caller_id resource action context_str : String) (engine : EngineOutcome)
    (now : ℚ) (audit_id : String) : CheckResult :=
  let key := make_key caller_id resource action context_str
  match cacheGet c key now ttl with
  | (some cached, c') => { decision := cached, cache := c', audit_events := [] }
  | (none, c') =>
    match engine with
    | .ok d =>
      { decision := d
        cache := cachePut c' key d now max_size
        audit_events := [d] }
    | .circuitOpen msg =>
      { decision := default_decision default_deny caller_id resource action msg audit_id
        cache := c'
        audit_events := [] }
    | .failure msg =>
      { decision := default_decision default_deny caller_id resource action msg audit_id
        cache := c'
        audit_events := [] }

end OPA

/-! ## Configuration validation — `src/agentweave/config.py`

The enums `Environment`, `AuthorizationProvider`, `DefaultAction`,
`PeerVerification` (lines 36-70), the `Literal`-typed `tls_min_version`
(line 280), `AgentConfig.is_production` (lines 403-405) and
`AgentConfig.validate_security` (lines 407-468). Pydantic coerces raw
string values into the enums before `validate_security` runs; that
coercion is modelled by `parse` functions enumerating each enum's values.
Only the configuration fields `validate_security` reads are modelled. -/

namespace Config

/-- `Environment`, config.py lines 36-41. -/
inductive Environment where
  | development
  | staging
  | production
deriving DecidableEq, Repr

/-- `AuthorizationProvider`, config.py lines 51-55. -/
inductive AuthzProvider where
  | opa
  | allow_all
deriving DecidableEq, Repr

/-- `DefaultAction`, config.py lines 58-62. -/
inductive DefaultAction where
  | deny
  | log_only
deriving DecidableEq, Repr

/-- `PeerVerification`, config.py lines 65-69: the enum has exactly the
members `strict` and `log-only`; there is no `none` member. -/
inductive PeerVerification where
  | strict
  | log_only
deriving DecidableEq, Repr

/-- Pydantic's coercion of a raw string into `PeerVerification`: a value
that is not one of the enum's members is a validation error. -/
def PeerVerification.parse : String → Option PeerVerification
  | "strict" => some .strict
  | "log-only" => some .log_only
  | _ => none

/-- The `Literal["1.2", "1.3"]` type of `transport.tls_min_version`. -/
inductive TlsMinVersion where
  | v1_2
  | v1_3
deriving DecidableEq, Repr

/-- The string value carried by each `tls_min_version` literal. -/
def TlsMinVersion.value : TlsMinVersion → String
  | .v1_2 => "1.2"
  | .v1_3 => "1.3"

/-- The fields of `AgentConfig` that `validate_security` reads. -/
structure AgentConfig where
  environment : Environment
  default_action : DefaultAction
  authz_provider : AuthzProvider
  peer_verification : PeerVerification
  audit_enabled : Bool
  tls_min_version : TlsMinVersion
deriving DecidableEq, Repr

/-- `AgentConfig.is_production`, config.py lines 403-405. -/
def AgentConfig.is_production (c : AgentConfig) : Bool :=
  c.environment = Environment.production

/-- The rule a `ConfigurationError` raised by `validate_security` reports. -/
inductive ConfigFailure where
  | defaultActionNotDeny
  | allowAllInProduction
  | peerVerificationNotStrict
  | badTlsMinVersion
  | auditDisabledInProduction
  | invalidEnumValue
deriving DecidableEq, Repr

/-- `AgentConfig.validate_security`, config.py lines 407-468: the five
security rules in source order (rule 6 is a no-op in the source). -/
def validate_security (c : AgentConfig) : Except ConfigFailure AgentConfig :=
  if c.is_production && !(c.default_action = DefaultAction.deny) then
    .error .defaultActionNotDeny
  else if c.is_production && (c.authz_provider = AuthzProvider.allow_all) then
    .error .allowAllInProduction
  else if c.is_production && !(c.peer_verification = PeerVerification.strict) then
    .error .peerVerificationNotStrict
  else if !(c.tls_min_version.value = "1.2" || c.tls_min_version.value = "1.3") then
    .error .badTlsMinVersion
  else if c.is_production && !c.audit_enabled then
    .error .auditDisabledInProduction
  else
    .ok c

/-- Construction of an `AgentConfig` from a raw `peer_verification` string:
pydantic's enum coercion followed by `validate_security`, modelling
`AgentConfig(**data)`. -/
def config_from_raw (environment : Environment) (default_action : DefaultAction)
    (authz_provider : AuthzProvider) (peer_verification_raw : String)
    (audit_enabled : Bool) (tls_min_version : TlsMinVersion) :
    Except ConfigFailure AgentConfig :=
  match PeerVerification.parse peer_verification_raw with
  | none => .error .invalidEnumValue
  | some pv =>
    validate_security
      { environment := environment
        default_action := default_action
        authz_provider := authz_provider
        peer_verification := pv
        audit_enabled := audit_enabled
        tls_min_version := tls_min_version }

end Config

/-! ## Circuit breaker — `src/agentweave/transport/circuit.py`

`CircuitState` (lines 22-26), `CircuitBreakerConfig` (lines 29-51),
`CircuitBreakerMetrics` (lines 54-77), `_should_attempt_reset`
(lines 152-162), `_transition_state` (lines 164-187), `_record_success`
(lines 189-210), `_record_failure` (lines 212-250) and `call`
(lines 252-299). `time.time()` instants are rationals supplied as
arguments. A call's interaction with the wrapped function is an explicit
outcome: the function, when invoked, either returns or raises (with the
exception possibly in `excluded_exceptions`). The returned `CallResult`
records whether the wrapped function was invoked, so "fails fast without
invoking" is a statement about the result. -/

namespace Circuit

/-- `CircuitState`, circuit.py lines 22-26. -/
inductive CircuitState where
  | closed
  | openS
  | half_open
deriving DecidableEq, Repr

/-- `CircuitBreakerConfig`, circuit.py lines 29-42 (threshold counters as
naturals, the recovery timeout as a rational number of seconds). -/
structure CBConfig where
  failure_threshold : ℕ
  success_threshold : ℕ
  timeout : ℚ
deriving DecidableEq, Repr

/-- The `__post_init__` validation of `CircuitBreakerConfig`,
circuit.py lines 44-51. -/
def CBConfig.valid (cfg : CBConfig) : Prop :=
  0 < cfg.failure_threshold ∧ 0 < cfg.success_threshold ∧ 0 < cfg.timeout

/-- `CircuitBreakerMetrics`, circuit.py lines 54-77. -/
structure CBMetrics where
  state : CircuitState
  failure_count : ℕ
  success_count : ℕ
  total_calls : ℕ
  total_failures : ℕ
  total_successes : ℕ
  total_rejected : ℕ
  last_failure_time : Option ℚ
  last_state_change : ℚ
deriving DecidableEq, Repr

/-- The metrics of a freshly constructed breaker (`CircuitBreakerMetrics()`
defaults, with `created` the construction instant). -/
def CBMetrics.fresh (created : ℚ) : CBMetrics :=
  { state := .closed
    failure_count := 0
    success_count := 0
    total_calls := 0
    total_failures := 0
    total_successes := 0
    total_rejected := 0
    last_failure_time := none
    last_state_change := created }

/-- `CircuitBreaker._should_attempt_reset`, circuit.py lines 152-162. -/
def should_attempt_reset (cfg : CBConfig) (m : CBMetrics) (now : ℚ) : Bool :=
  match m.last_failure_time with
  | none => false
  | some t => cfg.timeout ≤ now - t

/-- `CircuitBreaker._transition_state`, circuit.py lines 164-187: no-op on
the same state; otherwise set the state and `last_state_change`, and reset
the counters the source resets for the target state. -/
def transition_state (m : CBMetrics) (new_state : CircuitState) (now : ℚ) : CBMetrics :=
  if m.state = new_state then m
  else
    let m' := { m with state := new_state, last_state_change := now }
    match new_state with
    | .closed => { m' with failure_count := 0, success_count := 0 }
    | .half_open => { m' with success_count := 0 }
    | .openS => m'

/-- `CircuitBreaker._record_success`, circuit.py lines 189-210. -/
def record_success (cfg : CBConfig) (m : CBMetrics) (now : ℚ) : CBMetrics :=
  let m1 := { m with total_calls := m.total_calls + 1,
                     total_successes := m.total_successes + 1 }
  match m1.state with
  | .half_open =>
    let m2 := { m1 with success_count := m1.success_count + 1 }
    if cfg.success_threshold ≤ m2.success_count then
      transition_state m2 .closed now
    else m2
  | .closed => { m1 with failure_count := 0 }
  | .openS => m1

/-- `CircuitBreaker._record_failure`, circuit.py lines 212-250: an
excluded exception leaves the metrics untouched; otherwise count the
failure, stamp `last_failure_time`, and open the circuit from `half_open`
always or from `closed` at the failure threshold. -/
def record_failure (cfg : CBConfig) (m : CBMetrics) (excluded : Bool) (now : ℚ) :
    CBMetrics :=
  if excluded then m
  else
    let m1 := { m with total_calls := m.total_calls + 1,
                       total_failures := m.total_failures + 1,
                       failure_count := m.failure_count + 1,
                       last_failure_time := some now }
    match m1.state with
    | .half_open => transition_state m1 .openS now
    | .closed =>
      if cfg.failure_threshold ≤ m1.failure_count then
        transition_state m1 .openS now
      else m1
    | .openS => m1

/-- What the wrapped function does when invoked: return, or raise an
exception that is (or is not) in `excluded_exceptions`. -/
inductive CallOutcome where
  | success
  | failure (excluded : Bool)
deriving DecidableEq, Repr

/-- Observable result of `CircuitBreaker.call`: rejection with
`CircuitOpenError` (the wrapped function is not invoked), or an invocation
that returned or raised. -/
inductive CallResult where
  | rejected
  | invokedOk
  | invokedRaised
deriving DecidableEq, Repr

/-- How many times the wrapped function ran in a call with this result. -/
def CallResult.invocations : CallResult → ℕ
  | .rejected => 0
  | .invokedOk => 1
  | .invokedRaised => 1

/-- The OPEN-to-HALF_OPEN block at the top of `CircuitBreaker.call`,
circuit.py lines 272-281. -/
def check_reset (cfg : CBConfig) (m : CBMetrics) (now : ℚ) : CBMetrics :=
  if m.state = CircuitState.openS && should_attempt_reset cfg m now then
    transition_state m .half_open now
  else m

/-- `CircuitBreaker.call`, circuit.py lines 252-299: possibly transition
OPEN to HALF_OPEN, reject if still OPEN, otherwise invoke the wrapped
function once and record its outcome. -/
def call (cfg : CBConfig) (m : CBMetrics) (now : ℚ) (outcome : CallOutcome) :
    CallResult × CBMetrics :=
  let m1 := check_reset cfg m now
  if m1.state = CircuitState.openS then
    (.rejected, { m1 with total_rejected := m1.total_rejected + 1 })
  else
    match outcome with
    | .success => (.invokedOk, record_success cfg m1 now)
    | .failure excluded => (.invokedRaised, record_failure cfg m1 excluded now)

/-- A run of consecutive calls that all raise a counted (non-excluded)
exception, at the given instants. -/
def run_failures (cfg : CBConfig) (m : CBMetrics) (ts : List ℚ) : CBMetrics :=
  ts.foldl (fun acc t => (call cfg acc t (.failure false)).2) m

end Circuit

/-! ## Retry policy — `src/agentweave/transport/retry.py`

`RetryConfig` (lines 21-53), `RetryPolicy._calculate_delay` (lines 81-105)
and `RetryPolicy.execute` (lines 118-189). Delays are rationals.
`random.uniform(0, delay)` is modelled by an input stream of draw
fractions in `[0, 1]`, one per attempt, scaled by the computed delay. The
function under retry is modelled as a map from the attempt index to its
result; exception classification (`_is_retryable`,
`isinstance(e, retryable_exceptions)`) is a predicate on the raised
exception. The returned trace records the result, the number of
invocations, and the sleeps performed between attempts. -/

namespace Retry

/-- `RetryConfig`, retry.py lines 21-42 (the exception whitelist is the
`retryable` predicate passed to `execute`). -/
structure RetryConfig where
  max_retries : ℕ
  base_delay : ℚ
  max_delay : ℚ
  exponential_base : ℚ
  jitter : Bool
deriving DecidableEq, Repr

/-- The `__post_init__` validation of `RetryConfig`, retry.py lines 44-53. -/
def RetryConfig.validCfg (cfg : RetryConfig) : Prop :=
  0 < cfg.base_delay ∧ cfg.base_delay ≤ cfg.max_delay ∧ 1 < cfg.exponential_base

/-- The delay of `_calculate_delay` before the jitter step,
retry.py lines 93-99: `min(base_delay * exponential_base ^ attempt,
max_delay)`. -/
def raw_delay (cfg : RetryConfig) (attempt : ℕ) : ℚ :=
  min (cfg.base_delay * cfg.exponential_base ^ attempt) cfg.max_delay

/-- `RetryPolicy._calculate_delay`, retry.py lines 81-105, with the
uniform draw `random.uniform(0, delay)` modelled as `draw * delay` for a
draw fraction in `[0, 1]`. -/
def calculate_delay (cfg : RetryConfig) (attempt : ℕ) (draw : ℚ) : ℚ :=
  if cfg.jitter then draw * raw_delay cfg attempt else raw_delay cfg attempt

/-- Trace of one `RetryPolicy.execute` call: final result, number of
invocations of the wrapped function, and the sleeps between attempts in
order. -/
structure ExecTrace (E A : Type) where
  result : Except E A
  invocations : ℕ
  delays : List ℚ
deriving Repr

/-- The attempt loop of `RetryPolicy.execute`, retry.py lines 139-184,
unfolded on the number of retries remaining after the current attempt:
invoke, return on success, re-raise a non-retryable exception
immediately, re-raise the last exception when out of retries, otherwise
sleep `_calculate_delay attempt` and move to the next attempt. -/
def executeAux {E A : Type} (cfg : RetryConfig) (retryable : E → Bool)
    (f : ℕ → Except E A) (draws : ℕ → ℚ) :
    (attempt remaining : ℕ) → ExecTrace E A
  | attempt, remaining =>
    match f attempt with
    | .ok a => { result := .ok a, invocations := 1, delays := [] }
    | .error e =>
      if !retryable e then
        { result := .error e, invocations := 1, delays := [] }
      else
        match remaining with
        | 0 => { result := .error e, invocations := 1, delays := [] }
        | r + 1 =>
          let d := calculate_delay cfg attempt (draws attempt)
          let rest := executeAux cfg retryable f draws (attempt + 1) r
          { result := rest.result
            invocations := rest.invocations + 1
            delays := d :: rest.delays }

/-- `RetryPolicy.execute`, retry.py lines 118-189: the loop
`for attempt in range(max_retries + 1)` started at attempt 0 with
`max_retries` retries remaining. -/
def execute {E A : Type} (cfg : RetryConfig) (retryable : E → Bool)
    (f : ℕ → Except E A) (draws : ℕ → ℚ) : ExecTrace E A :=
  executeAux cfg retryable f draws 0 cfg.max_retries

end Retry

/-! ## Peer-pattern decorators — `src/agentweave/decorators.py`

`requires_peer` (lines 108-160). Each `@requires_peer(pattern)` decoration
appends the pattern to `CapabilityMetadata.requires_peer_patterns` and
wraps the handler in a guard that raises `PermissionError` unless
`fnmatch.fnmatch(caller_id, pattern)` holds; a capability carrying several
patterns is a handler wrapped in one such guard per pattern, so an
invocation runs the guards in sequence and every one of them must pass.

`fnmatch.fnmatch` on POSIX matches the whole name against the glob
pattern, `*` matching any run of characters (including `/`) and `?` any
single character. The matcher below implements exactly that, by fuel-based
recursion (the fuel bound `pattern length + name length + 1` strictly
dominates the recursion depth); character-class brackets, which none of
the repository's patterns use, are treated as literal characters. -/

namespace Decorators

/-- Glob matching of a pattern against a name over character lists:
`globAux fuel pattern name`. Each recursive call strictly decreases
`pattern length + name length`, so the fuel never runs out when the
wrapper below supplies `pattern length + name length + 1`. -/
def globAux : ℕ → List Char → List Char → Bool
  | 0, _, _ => false
  | fuel + 1, p, s =>
    match p, s with
    | [], [] => true
    | [], _ :: _ => false
    | '*' :: ps, s' =>
      globAux fuel ps s' ||
        (match s' with
         | [] => false
         | _ :: t => globAux fuel ('*' :: ps) t)
    | _ :: _, [] => false
    | c :: ps, d :: ss => (c == '?' || c == d) && globAux fuel ps ss

/-- `fnmatch.fnmatch(name, pattern)` as used by `requires_peer`. -/
def fnmatch (name pattern_str : String) : Bool :=
  globAux (pattern_str.length + name.length + 1) pattern_str.data name.data

/-- The guard body of one `requires_peer` wrapper, decorators.py lines
144-151: `PermissionError` unless the caller matches the pattern. -/
def requires_peer_check (pattern_str caller_id : String) : Except String Unit :=
  if !fnmatch caller_id pattern_str then
    .error ("Caller " ++ caller_id ++ " does not match required peer pattern "
      ++ pattern_str)
  else
    .ok ()

/-- Invocation of a handler stacked under one `requires_peer` guard per
listed pattern: the guards run in sequence and the first failing one
raises, so the handler runs only when every guard passed. -/
def invoke_with_peer_guards : List String → String → Except String Unit
  | [], _ => .ok ()
  | p :: ps, caller_id =>
    match requires_peer_check p caller_id with
    | .error e => .error e
    | .ok _ => invoke_with_peer_guards ps caller_id

/-- A caller is eligible to invoke the capability when the stacked guards
let the invocation through. -/
def eligible (patterns : List String) (caller_id : String) : Bool :=
  match invoke_with_peer_guards patterns caller_id with
  | .ok _ => true
  | .error _ => false

end Decorators

/-! ## Sample inputs

Concrete values used to instantiate the theorems below on closed inputs. -/

/-- A completed task with a result, used to exercise terminal-state behaviour. -/
def tDoneSample : A2ATask.Task :=
  { id := "t1"
    type := "search"
    state := .completed
    result := some "done"
    error := none
    updated_at := 5 }

/-- A task manager holding exactly the completed sample task. -/
def mDoneSample : A2ATask.TaskManager :=
  { tasks := [("t1", tDoneSample)] }

/-- A circuit breaker configuration with threshold 2 and timeout 30 s. -/
def cbCfgSample : Circuit.CBConfig :=
  { failure_threshold := 2, success_threshold := 2, timeout := 30 }

/-- A retry configuration with 2 retries and no jitter. -/
def retryCfgSample : Retry.RetryConfig :=
  { max_retries := 2, base_delay := 1, max_delay := 30, exponential_base := 2,
    jitter := false }

/-- A production configuration satisfying every security rule. -/
def prodCfgSample : Config.AgentConfig :=
  { environment := .production
    default_action := .deny
    authz_provider := .opa
    peer_verification := .strict
    audit_enabled := true
    tls_min_version := .v1_3 }

/-- A peer certificate whose SAN SPIFFE ID differs from the expected peer. -/
def mismatchedCertSample : Channel.Certificate :=
  { san := some [.uri "spiffe://agentweave.io/agent/other"] }

/-- A channel environment in which every external collaborator succeeds while
the peer presents the mismatched certificate. -/
def channelEnvSample : Channel.ChannelEnv :=
  { svid_ctx_ok := true
    trust_bundles := fun d => if d = "agentweave.io" then some ["ca"] else none
    peer_cert := mismatchedCertSample
    wire_status := some 200 }

/-! ## Helper lemmas -/

/-- Prefix matching is stable under extending the haystack on the right. -/
theorem charsHavePre_append (n : List Char) :
    ∀ (h rest : List Char), charsHavePre n h = true →
      charsHavePre n (h ++ rest) = true := by
  induction n with
  | nil => intro h rest _; rfl
  | cons a as ih =>
    intro h rest hpre
    cases h with
    | nil => simp [charsHavePre] at hpre
    | cons b bs =>
      simp only [charsHavePre, Bool.and_eq_true, beq_iff_eq] at hpre
      simp only [List.cons_append, charsHavePre, Bool.and_eq_true, beq_iff_eq]
      exact ⟨hpre.1, ih bs rest hpre.2⟩

/-- A needle that matches at the front is contained. -/
theorem charsContain_of_head (n h : List Char) (hpre : charsHavePre n h = true) :
    charsContain n h = true := by
  cases h with
  | nil => exact hpre
  | cons c t => simp [charsContain, hpre]

/-- Filtering out a key removes every entry found under it. -/
theorem find_filter_ne_none (l : List (String × OPA.AuthzDecision × ℚ)) (k : String) :
    (l.filter (fun e => e.1 ≠ k)).find? (fun e => e.1 = k) = none := by
  induction l with
  | nil => rfl
  | cons a t ih =>
    by_cases h : a.1 = k
    · simp [List.filter, h, ih]
    · simp [List.filter, h, List.find?, ih]

/-! ## Claim theorems -/

/-- C2: the claim states that once a task is terminal, every further
`TaskManager.update_task` on it is rejected and leaves state, result and
error unchanged. The code has no such guard: on the completed sample task,
`update_task` with a `running` state, a result and an error message moves
the task back to `running` and overwrites both its result and its error,
both in the returned task and in the stored table. -/
theorem update_task_accepts_terminal_transition :
    A2ATask.TaskState.is_terminal tDoneSample.state = true ∧
    (A2ATask.TaskManager.update_task mDoneSample "t1" (some .running)
        (some "clobbered") (some "boom") 9).1
      = some { id := "t1", type := "search", state := .running,
               result := some "clobbered", error := some "boom", updated_at := 9 } ∧
    ((A2ATask.TaskManager.update_task mDoneSample "t1" (some .running)
        (some "clobbered") (some "boom") 9).2.tasks.lookup "t1")
      = some { id := "t1", type := "search", state := .running,
               result := some "clobbered", error := some "boom", updated_at := 9 } :=
  ⟨rfl, rfl, rfl⟩

/-- C10: a `task.cancel` request naming a task that is already terminal
returns a JSON-RPC success response carrying the task serialized
unchanged, and leaves the task table untouched. -/
theorem task_cancel_terminal_returns_task_unchanged
    (m : A2ATask.TaskManager) (tid rid : String) (t : A2ATask.Task) (now : ℚ)
    (hne : tid.isEmpty = false)
    (hlook : m.tasks.lookup tid = some t)
    (hterm : t.state.is_terminal = true) :
    A2AServer.handle_task_cancel m (some tid) rid now
      = (.success t.to_dict rid, m) := by
  simp [A2AServer.handle_task_cancel, hne, hlook, A2ATask.Task.is_terminal, hterm]

/-- Witness: cancelling the completed sample task returns success with the
unchanged serialized task. -/
theorem task_cancel_terminal_witness :
    A2AServer.handle_task_cancel mDoneSample (some "t1") "r1" 9
      = (.success tDoneSample.to_dict "r1", mDoneSample) :=
  task_cancel_terminal_returns_task_unchanged mDoneSample "t1" "r1" tDoneSample 9
    rfl rfl rfl

/-- C3: the claim states that `get_svid` refuses to return a credential
whose `not-after` is earlier than now, comparing `not-after` against the
current time. The code instead compares the certificate's
`not_valid_after_utc` with itself (mtls.py line 170), a test that never
holds — so even its warning branch is dead — and it returns the SVID
unconditionally: at instant 100 an SVID expired at instant 10 is returned
without so much as a warning. -/
theorem static_get_svid_returns_expired_credential :
    (∀ s : StaticMTLS.X509Svid,
        decide (s.not_valid_after_utc < s.not_valid_after_utc) = false) ∧
    StaticMTLS.get_svid { initialized := true, svid := some ⟨10⟩ } 100
      = .ok (⟨10⟩, false) ∧
    (10 : ℚ) < 100 := by
  refine ⟨fun s => decide_eq_false (lt_irrefl _), ?_, by norm_num⟩
  have h : (decide ((10 : ℚ) < 10)) = false := decide_eq_false (lt_irrefl _)
  simp [StaticMTLS.get_svid, h]

/-- C5: in production, `validate_security` succeeds exactly when the
default action is `deny`, the authorization provider is not `allow-all`,
peer verification is `strict`, and audit is enabled; and in every
environment a raw `peer_verification` value of `"none"` is rejected at
enum coercion, before validation even runs. -/
theorem validate_security_production_rules :
    (∀ c : Config.AgentConfig, c.environment = Config.Environment.production →
        ((Config.validate_security c).isOk = true ↔
          (c.default_action = Config.DefaultAction.deny ∧
           c.authz_provider ≠ Config.AuthzProvider.allow_all ∧
           c.peer_verification = Config.PeerVerification.strict ∧
           c.audit_enabled = true))) ∧
    (∀ (env : Config.Environment) (da : Config.DefaultAction)
        (ap : Config.AuthzProvider) (audit : Bool) (tls : Config.TlsMinVersion),
        Config.config_from_raw env da ap "none" audit tls
          = .error Config.ConfigFailure.invalidEnumValue) := by
  constructor
  · rintro ⟨env, da, ap, pv, ae, tls⟩ h
    simp only at h
    subst h
    cases da <;> cases ap <;> cases pv <;> cases ae <;> cases tls <;> decide
  · intro env da ap audit tls
    rfl

/-- Witness: the compliant production sample configuration validates, while
the same configuration with default action `log-only` is rejected. -/
theorem validate_security_production_witness :
    (Config.validate_security prodCfgSample).isOk = true ∧
    ¬ ((Config.validate_security
        { prodCfgSample with default_action := .log_only }).isOk = true) := by
  constructor
  · exact (validate_security_production_rules.1 prodCfgSample rfl).mpr (by decide)
  · intro hcontra
    have h := (validate_security_production_rules.1 _ rfl).mp hcontra
    exact absurd h.1 (by decide)

/-- C8 counterexample: the claim states that a caller is eligible iff at
least one of the capability's peer patterns matches. For the pattern list
`[spiffe://agentweave.io/agent/*, spiffe://other.io/agent/*]` and caller
`spiffe://agentweave.io/agent/search`, the first pattern matches — so the
claim deems the caller eligible — yet the stacked `requires_peer` guards
reject the invocation, because each guard in the stack must pass. -/
theorem stacked_peer_patterns_not_disjunctive :
    (["spiffe://agentweave.io/agent/*", "spiffe://other.io/agent/*"].any
        (fun p => Decorators.fnmatch "spiffe://agentweave.io/agent/search" p)) = true ∧
    Decorators.eligible ["spiffe://agentweave.io/agent/*", "spiffe://other.io/agent/*"]
        "spiffe://agentweave.io/agent/search" = false :=
  ⟨rfl, rfl⟩

/-- C8 amended: a caller is eligible to invoke a capability declared with a
list of peer patterns iff every listed pattern matches the caller
identifier — the stacked guards form a conjunction over the patterns, not
a disjunction. -/
theorem stacked_peer_patterns_conjunctive
    (patterns : List String) (caller_id : String) :
    Decorators.eligible patterns caller_id
      = patterns.all (fun p => Decorators.fnmatch caller_id p) := by
  induction patterns with
  | nil => rfl
  | cons p ps ih =>
    cases hf : Decorators.fnmatch caller_id p with
    | false =>
      have h : Decorators.eligible (p :: ps) caller_id = false := by
        simp [Decorators.eligible, Decorators.invoke_with_peer_guards,
              Decorators.requires_peer_check, hf]
      rw [h]
      simp [hf]
    | true =>
      have h : Decorators.eligible (p :: ps) caller_id
          = Decorators.eligible ps caller_id := by
        simp [Decorators.eligible, Decorators.invoke_with_peer_guards,
              Decorators.requires_peer_check, hf]
      rw [h, ih]
      simp [hf]

/-- Substring containment holds whenever the needle is a prefix of the
left part of an appended string. -/
theorem containsSub_append_left (pre suffix sub : String)
    (h : charsHavePre sub.data pre.data = true) :
    containsSub (pre ++ suffix) sub = true := by
  unfold containsSub
  rw [String.data_append]
  exact charsContain_of_head _ _ (charsHavePre_append _ _ _ h)

/-- A cache miss leaves no entry under the key, whether the key was absent
or its entry was evicted as expired. -/
theorem cacheGet_miss_no_entry (c : OPA.CacheState) (key : String) (now ttl : ℚ)
    (hmiss : (OPA.cacheGet c key now ttl).1 = none) :
    ((OPA.cacheGet c key now ttl).2).entries.find? (fun e => e.1 = key) = none := by
  unfold OPA.cacheGet at *
  cases hf : c.entries.find? (fun e => e.1 = key) with
  | none => simp [hf]
  | some e =>
    by_cases hexp : now - e.2.2 > ttl
    · simp [hf, hexp, OPA.cacheErase, find_filter_ne_none]
    · simp [hf, hexp] at hmiss

/-- With no entry under the key, a lookup misses and leaves the cache as
it is. -/
theorem cacheGet_of_no_entry (c : OPA.CacheState) (key : String) (now ttl : ℚ)
    (hfind : c.entries.find? (fun e => e.1 = key) = none) :
    OPA.cacheGet c key now ttl = (none, c) := by
  simp [OPA.cacheGet, hfind]

/-- C4 counterexample: the claim states that on the default path with
default deny, the decision's reason contains the string
"policy engine unavailable". On a cache miss with the engine query
failing, the code's reason is
"OPA unavailable, default deny policy applied: connection refused", which
does not contain that string. -/
theorem default_deny_reason_lacks_claimed_string :
    ((OPA.check true 60 1000 { entries := [] } "spiffe://a/x" "spiffe://a/y" "search" ""
        (.failure "connection refused") 0 "aid").decision.allowed = false) ∧
    ((OPA.check true 60 1000 { entries := [] } "spiffe://a/x" "spiffe://a/y" "search" ""
        (.failure "connection refused") 0 "aid").decision.reason
      = "OPA unavailable, default deny policy applied: connection refused") ∧
    containsSub (OPA.check true 60 1000 { entries := [] } "spiffe://a/x" "spiffe://a/y"
        "search" "" (.failure "connection refused") 0 "aid").decision.reason
        "policy engine unavailable" = false :=
  ⟨rfl, rfl, rfl⟩

/-- C4 amended: whenever the policy-engine query fails or the circuit
breaker is open and the provider is configured with default deny, `check`
returns a decision with `allowed = false` whose reason is
"OPA unavailable, default deny policy applied: " followed by the error —
in particular it contains "OPA unavailable" (the engine named as OPA),
not the claim's literal "policy engine unavailable". -/
theorem check_default_path_denies
    (ttl : ℚ) (max_size : ℕ) (c : OPA.CacheState)
    (caller resource action ctx msg aid : String) (now : ℚ)
    (engine : OPA.EngineOutcome)
    (hmiss : (OPA.cacheGet c (OPA.make_key caller resource action ctx) now ttl).1 = none)
    (heng : engine = .circuitOpen msg ∨ engine = .failure msg) :
    (OPA.check true ttl max_size c caller resource action ctx engine now aid).decision.allowed
      = false ∧
    (OPA.check true ttl max_size c caller resource action ctx engine now aid).decision.reason
      = "OPA unavailable, default deny policy applied: " ++ msg ∧
    containsSub
      (OPA.check true ttl max_size c caller resource action ctx engine now aid).decision.reason
      "OPA unavailable" = true := by
  rcases hc : OPA.cacheGet c (OPA.make_key caller resource action ctx) now ttl with ⟨o, c2⟩
  rw [hc] at hmiss
  have ho : o = none := hmiss
  subst ho
  rcases heng with h | h <;> subst h <;>
    exact ⟨by simp [OPA.check, hc, OPA.default_decision],
           by simp [OPA.check, hc, OPA.default_decision],
           by
             simp only [OPA.check, hc, OPA.default_decision]
             simp only [if_pos]
             exact containsSub_append_left _ _ _ (by decide)⟩

/-- Witness: with an empty cache and the circuit breaker open, the
default-deny decision denies with the OPA-unavailable reason. -/
theorem check_default_path_denies_witness :
    (OPA.check true 60 1000 { entries := [] } "spiffe://a/x" "spiffe://a/y" "search" ""
        (.circuitOpen "Circuit breaker is OPEN") 0 "aid").decision.allowed = false ∧
    (OPA.check true 60 1000 { entries := [] } "spiffe://a/x" "spiffe://a/y" "search" ""
        (.circuitOpen "Circuit breaker is OPEN") 0 "aid").decision.reason
      = "OPA unavailable, default deny policy applied: " ++ "Circuit breaker is OPEN" ∧
    containsSub (OPA.check true 60 1000 { entries := [] } "spiffe://a/x" "spiffe://a/y"
        "search" "" (.circuitOpen "Circuit breaker is OPEN") 0 "aid").decision.reason
      "OPA unavailable" = true :=
  check_default_path_denies 60 1000 { entries := [] } "spiffe://a/x" "spiffe://a/y"
    "search" "" "Circuit breaker is OPEN" "aid" 0
    (.circuitOpen "Circuit breaker is OPEN") rfl (Or.inl rfl)

/-- C9: on the default path (engine failure or circuit open after a cache
miss) the default decision is not written to the decision cache and no
audit event is emitted; the key is still absent, so an identical later
check with a recovered engine queries the engine — returning the engine's
decision and emitting exactly one audit event for it. -/
theorem check_default_path_skips_cache_and_audit
    (default_deny : Bool) (ttl : ℚ) (max_size : ℕ) (c : OPA.CacheState)
    (caller resource action ctx msg aid : String) (now : ℚ)
    (engine : OPA.EngineOutcome)
    (hmiss : (OPA.cacheGet c (OPA.make_key caller resource action ctx) now ttl).1 = none)
    (heng : engine = .circuitOpen msg ∨ engine = .failure msg) :
    (OPA.check default_deny ttl max_size c caller resource action ctx engine now aid).cache
      = (OPA.cacheGet c (OPA.make_key caller resource action ctx) now ttl).2 ∧
    (OPA.check default_deny ttl max_size c caller resource action ctx engine now aid).audit_events
      = [] ∧
    (∀ (d : OPA.AuthzDecision) (now' : ℚ) (aid' : String),
      (OPA.check default_deny ttl max_size
          (OPA.check default_deny ttl max_size c caller resource action ctx engine now aid).cache
          caller resource action ctx (.ok d) now' aid').decision = d ∧
      (OPA.check default_deny ttl max_size
          (OPA.check default_deny ttl max_size c caller resource action ctx engine now aid).cache
          caller resource action ctx (.ok d) now' aid').audit_events = [d]) := by
  rcases hc : OPA.cacheGet c (OPA.make_key caller resource action ctx) now ttl with ⟨o, c2⟩
  rw [hc] at hmiss
  have ho : o = none := hmiss
  subst ho
  have hfind : c2.entries.find?
      (fun e => e.1 = OPA.make_key caller resource action ctx) = none := by
    have h := cacheGet_miss_no_entry c (OPA.make_key caller resource action ctx) now ttl
      (by rw [hc])
    rw [hc] at h
    exact h
  have hcache :
      (OPA.check default_deny ttl max_size c caller resource action ctx engine now aid).cache
        = c2 := by
    rcases heng with h | h <;> subst h <;> simp [OPA.check, hc]
  have haudit :
      (OPA.check default_deny ttl max_size c caller resource action ctx engine now aid).audit_events
        = [] := by
    rcases heng with h | h <;> subst h <;> simp [OPA.check, hc]
  have hget2 : ∀ now' : ℚ,
      OPA.cacheGet c2 (OPA.make_key caller resource action ctx) now' ttl = (none, c2) :=
    fun now' => cacheGet_of_no_entry c2 _ now' ttl hfind
  refine ⟨by rw [hcache], haudit, fun d now' aid' => ?_⟩
  rw [hcache]
  exact ⟨by simp [OPA.check, hget2 now'], by simp [OPA.check, hget2 now']⟩

/-- Witness: with an empty cache and a failing engine, the default path
leaves the cache empty and emits no audit event; re-checking after the
engine recovers returns the engine's decision and audits it. -/
theorem check_default_path_skips_cache_witness :
    (OPA.check true 60 1000 { entries := [] } "spiffe://a/x" "spiffe://a/y" "search" ""
        (.failure "boom") 0 "aid").cache
      = (OPA.cacheGet { entries := [] }
          (OPA.make_key "spiffe://a/x" "spiffe://a/y" "search" "") 0 60).2 ∧
    (OPA.check true 60 1000 { entries := [] } "spiffe://a/x" "spiffe://a/y" "search" ""
        (.failure "boom") 0 "aid").audit_events = [] ∧
    (∀ (d : OPA.AuthzDecision) (now' : ℚ) (aid' : String),
      (OPA.check true 60 1000
          (OPA.check true 60 1000 { entries := [] } "spiffe://a/x" "spiffe://a/y" "search" ""
              (.failure "boom") 0 "aid").cache
          "spiffe://a/x" "spiffe://a/y" "search" "" (.ok d) now' aid').decision = d ∧
      (OPA.check true 60 1000
          (OPA.check true 60 1000 { entries := [] } "spiffe://a/x" "spiffe://a/y" "search" ""
              (.failure "boom") 0 "aid").cache
          "spiffe://a/x" "spiffe://a/y" "search" "" (.ok d) now' aid').audit_events = [d]) :=
  check_default_path_skips_cache_and_audit true 60 1000 { entries := [] }
    "spiffe://a/x" "spiffe://a/y" "search" "" "boom" "aid" 0 (.failure "boom")
    rfl (Or.inr rfl)

/-- C1: the claim states a channel request succeeds only if the peer
certificate's SAN URI byte-equals the expected peer identifier, failing
with peer-verification-failed otherwise. In the code the request path
never consults the peer certificate: `request` is invariant under
replacing the presented certificate, and a request over an environment
whose peer presents SAN `spiffe://agentweave.io/agent/other` succeeds
with status 200 against a channel expecting
`spiffe://agentweave.io/agent/search` — even though the source's own
`_verify_peer_callback`, which no code path invokes, would have rejected
exactly this certificate. -/
theorem channel_request_ignores_peer_certificate :
    (∀ (peer : String) (env : Channel.ChannelEnv) (c : Channel.Certificate),
        Channel.request peer { env with peer_cert := c } = Channel.request peer env) ∧
    Channel.request "spiffe://agentweave.io/agent/search" channelEnvSample = .ok 200 ∧
    Channel.extract_spiffe_id_from_cert channelEnvSample.peer_cert
      = some "spiffe://agentweave.io/agent/other" ∧
    Channel.verify_peer_callback "spiffe://agentweave.io/agent/search"
        channelEnvSample.peer_cert
      = .error { expected_id := "spiffe://agentweave.io/agent/search",
                 actual_id := some "spiffe://agentweave.io/agent/other" } :=
  ⟨fun _ _ _ => rfl, rfl, rfl, rfl⟩

/-- A call on a closed breaker with a counted failure invokes the function
and records the failure. -/
theorem call_closed_failure (cfg : Circuit.CBConfig) (m : Circuit.CBMetrics) (t : ℚ)
    (h : m.state = .closed) :
    Circuit.call cfg m t (.failure false)
      = (.invokedRaised, Circuit.record_failure cfg m false t) := by
  simp [Circuit.call, Circuit.check_reset, h]

/-- A counted failure on a closed breaker below the threshold keeps it
closed, increments the failure count, and stamps the failure time. -/
theorem record_failure_closed_stay (cfg : Circuit.CBConfig) (m : Circuit.CBMetrics)
    (t : ℚ) (h : m.state = .closed)
    (hlt : ¬ cfg.failure_threshold ≤ m.failure_count + 1) :
    (Circuit.record_failure cfg m false t).state = .closed ∧
    (Circuit.record_failure cfg m false t).failure_count = m.failure_count + 1 ∧
    (Circuit.record_failure cfg m false t).last_failure_time = some t := by
  simp [Circuit.record_failure, h, hlt]

/-- A counted failure on a closed breaker that reaches the threshold opens
it and stamps the failure time. -/
theorem record_failure_closed_open (cfg : Circuit.CBConfig) (m : Circuit.CBMetrics)
    (t : ℚ) (h : m.state = .closed)
    (hge : cfg.failure_threshold ≤ m.failure_count + 1) :
    (Circuit.record_failure cfg m false t).state = .openS ∧
    (Circuit.record_failure cfg m false t).last_failure_time = some t := by
  simp [Circuit.record_failure, h, hge, Circuit.transition_state]

/-- A run of counted failures on a closed breaker that stays strictly below
the threshold keeps the breaker closed and counts each failure. -/
theorem run_failures_closed (cfg : Circuit.CBConfig) :
    ∀ (ts : List ℚ) (m : Circuit.CBMetrics),
      m.state = .closed →
      m.failure_count + ts.length < cfg.failure_threshold →
      (Circuit.run_failures cfg m ts).state = .closed ∧
      (Circuit.run_failures cfg m ts).failure_count = m.failure_count + ts.length := by
  intro ts
  induction ts with
  | nil =>
    intro m h _
    exact ⟨h, by simp [Circuit.run_failures]⟩
  | cons t ts ih =>
    intro m h hlt
    have hlen : m.failure_count + (ts.length + 1) < cfg.failure_threshold := by
      simpa using hlt
    have hlt1 : ¬ cfg.failure_threshold ≤ m.failure_count + 1 := by omega
    have hrf := record_failure_closed_stay cfg m t h hlt1
    have hunfold : Circuit.run_failures cfg m (t :: ts)
        = Circuit.run_failures cfg (Circuit.record_failure cfg m false t) ts := by
      simp [Circuit.run_failures, call_closed_failure cfg m t h]
    have hrest := ih (Circuit.record_failure cfg m false t) hrf.1
      (by rw [hrf.2.1]; omega)
    rw [hunfold]
    refine ⟨hrest.1, ?_⟩
    rw [hrest.2, hrf.2.1]
    simp only [List.length_cons]
    omega

/-- A call on an open breaker within the recovery timeout is rejected. -/
theorem call_open_rejected (cfg : Circuit.CBConfig) (m : Circuit.CBMetrics)
    (now : ℚ) (o : Circuit.CallOutcome) (tl : ℚ)
    (h : m.state = .openS) (hlf : m.last_failure_time = some tl)
    (hnow : now - tl < cfg.timeout) :
    (Circuit.call cfg m now o).1 = .rejected := by
  have hres : Circuit.should_attempt_reset cfg m now = false := by
    simp [Circuit.should_attempt_reset, hlf]
    exact hnow
  simp [Circuit.call, Circuit.check_reset, h, hres]

/-- A call on an open breaker at or past the recovery timeout transitions
it to half-open and invokes the wrapped function exactly once. -/
theorem call_open_probe (cfg : Circuit.CBConfig) (m : Circuit.CBMetrics)
    (now' : ℚ) (o : Circuit.CallOutcome) (tl : ℚ)
    (h : m.state = .openS) (hlf : m.last_failure_time = some tl)
    (hnow : cfg.timeout ≤ now' - tl) :
    (Circuit.check_reset cfg m now').state = .half_open ∧
    ((Circuit.call cfg m now' o).1).invocations = 1 := by
  have hres : Circuit.should_attempt_reset cfg m now' = true := by
    simp [Circuit.should_attempt_reset, hlf]
    exact hnow
  have hcr : (Circuit.check_reset cfg m now').state = .half_open := by
    simp [Circuit.check_reset, h, hres, Circuit.transition_state]
  refine ⟨hcr, ?_⟩
  cases o with
  | success => simp [Circuit.call, hcr, Circuit.CallResult.invocations]
  | failure ex => simp [Circuit.call, hcr, Circuit.CallResult.invocations]

/-- C6: starting from a closed breaker with a zero failure count, after
`failure_threshold` consecutive counted failures (the last at instant
`tlast`) the breaker is open with `last_failure_time = tlast`, each of
those failures having actually invoked the wrapped function; the next call
strictly within `timeout` of `tlast` is rejected with circuit-open without
invoking the wrapped function; and a call at least `timeout` after `tlast`
transitions the breaker to half-open and invokes the wrapped function
exactly once. -/
theorem circuit_breaker_threshold_and_recovery
    (cfg : Circuit.CBConfig) (m0 : Circuit.CBMetrics) (ts : List ℚ)
    (tlast now now' : ℚ) (o o' : Circuit.CallOutcome)
    (hstate : m0.state = .closed) (hcount : m0.failure_count = 0)
    (hlen : ts.length + 1 = cfg.failure_threshold) :
    (Circuit.call cfg (Circuit.run_failures cfg m0 ts) tlast (.failure false)).1
      = .invokedRaised ∧
    ((Circuit.call cfg (Circuit.run_failures cfg m0 ts) tlast (.failure false)).2).state
      = .openS ∧
    ((Circuit.call cfg (Circuit.run_failures cfg m0 ts) tlast
        (.failure false)).2).last_failure_time = some tlast ∧
    (now - tlast < cfg.timeout →
      (Circuit.call cfg
          ((Circuit.call cfg (Circuit.run_failures cfg m0 ts) tlast (.failure false)).2)
          now o).1 = .rejected) ∧
    (cfg.timeout ≤ now' - tlast →
      (Circuit.check_reset cfg
          ((Circuit.call cfg (Circuit.run_failures cfg m0 ts) tlast (.failure false)).2)
          now').state = .half_open ∧
      ((Circuit.call cfg
          ((Circuit.call cfg (Circuit.run_failures cfg m0 ts) tlast (.failure false)).2)
          now' o').1).invocations = 1) := by
  have hrun := run_failures_closed cfg ts m0 hstate (by omega)
  have hfc : (Circuit.run_failures cfg m0 ts).failure_count = ts.length := by
    rw [hrun.2, hcount]
    omega
  have hstep := call_closed_failure cfg (Circuit.run_failures cfg m0 ts) tlast hrun.1
  have hopen := record_failure_closed_open cfg (Circuit.run_failures cfg m0 ts) tlast
    hrun.1 (by rw [hfc]; omega)
  rw [hstep]
  refine ⟨rfl, hopen.1, hopen.2, ?_, ?_⟩
  · intro hnow
    exact call_open_rejected cfg _ now o tlast hopen.1 hopen.2 hnow
  · intro hnow'
    exact call_open_probe cfg _ now' o' tlast hopen.1 hopen.2 hnow'

/-- Witness: with threshold 2 and timeout 30, failures at instants 1 and 2
open the sample breaker; a call at instant 3 is rejected without invoking
the wrapped function, and a call at instant 40 invokes it exactly once. -/
theorem circuit_breaker_threshold_witness :
    (Circuit.call cbCfgSample
        ((Circuit.call cbCfgSample
            (Circuit.run_failures cbCfgSample (Circuit.CBMetrics.fresh 0) [1]) 2
            (.failure false)).2)
        3 .success).1 = .rejected ∧
    ((Circuit.call cbCfgSample
        ((Circuit.call cbCfgSample
            (Circuit.run_failures cbCfgSample (Circuit.CBMetrics.fresh 0) [1]) 2
            (.failure false)).2)
        40 .success).1).invocations = 1 := by
  have h := circuit_breaker_threshold_and_recovery cbCfgSample
    (Circuit.CBMetrics.fresh 0) [1] 2 3 40 .success .success rfl rfl rfl
  exact ⟨h.2.2.2.1 (by norm_num [cbCfgSample]), (h.2.2.2.2 (by norm_num [cbCfgSample])).2⟩

/-- The raw backoff delay is nonnegative under a valid configuration. -/
theorem raw_delay_nonneg (cfg : Retry.RetryConfig) (hv : cfg.validCfg) (n : ℕ) :
    0 ≤ Retry.raw_delay cfg n := by
  obtain ⟨hb, hbm, he⟩ := hv
  refine le_min ?_ ?_
  · exact mul_nonneg (le_of_lt hb) (pow_nonneg (by linarith) n)
  · linarith

/-- On a function that raises a retryable exception at every attempt, the
attempt loop runs all remaining attempts, re-raises the last exception,
and sleeps the computed delay between consecutive attempts. -/
theorem executeAux_const_fail {E A : Type} (cfg : Retry.RetryConfig)
    (retryable : E → Bool) (f : ℕ → Except E A) (draws : ℕ → ℚ) (e : ℕ → E)
    (hf : ∀ i, f i = .error (e i)) (hr : ∀ i, retryable (e i) = true) :
    ∀ (r attempt : ℕ),
      Retry.executeAux cfg retryable f draws attempt r
        = { result := .error (e (attempt + r)), invocations := r + 1,
            delays := (List.range r).map
              (fun j => Retry.calculate_delay cfg (attempt + j) (draws (attempt + j))) } := by
  intro r
  induction r with
  | zero =>
    intro attempt
    simp [Retry.executeAux, hf attempt, hr attempt]
  | succ r ih =>
    intro attempt
    rw [Retry.executeAux]
    simp only [hf attempt, hr attempt, Bool.not_true, Bool.false_eq_true, if_false]
    rw [ih (attempt + 1)]
    simp only [Retry.ExecTrace.mk.injEq]
    refine ⟨by rw [show attempt + 1 + r = attempt + (r + 1) by omega], trivial, ?_⟩
    rw [List.range_succ_eq_map, List.map_cons, List.map_map]
    refine congrArg₂ List.cons (by simp) ?_
    refine List.map_congr_left fun j _ => ?_
    have harith : attempt + (Nat.succ j) = attempt + 1 + j := by omega
    simp [Function.comp, harith]

/-- C7: under a valid configuration and draw fractions in the unit
interval: a function raising a retryable exception at every attempt is
invoked exactly `max_retries + 1` times, the last exception is re-raised,
and the inter-attempt delays are exactly `calculate_delay` at retries
`0 … max_retries - 1`; `calculate_delay n` equals
`min(base_delay · exponential_base ^ n, max_delay)` without jitter and
lies in `[0, that value]` with jitter; the raw delays are monotone in the
retry index and bounded by `max_delay`; and a non-retryable exception
propagates after a single invocation with no sleeps. -/
theorem retry_execute_spec {E A : Type} (cfg : Retry.RetryConfig)
    (retryable : E → Bool) (f : ℕ → Except E A) (draws : ℕ → ℚ) (e : ℕ → E)
    (hv : cfg.validCfg) (hd : ∀ n, 0 ≤ draws n ∧ draws n ≤ 1) :
    ((∀ i, f i = .error (e i)) → (∀ i, retryable (e i) = true) →
      (Retry.execute cfg retryable f draws).invocations = cfg.max_retries + 1 ∧
      (Retry.execute cfg retryable f draws).result = .error (e cfg.max_retries) ∧
      (Retry.execute cfg retryable f draws).delays
        = (List.range cfg.max_retries).map
            (fun n => Retry.calculate_delay cfg n (draws n))) ∧
    (∀ n, Retry.raw_delay cfg n
        = min (cfg.base_delay * cfg.exponential_base ^ n) cfg.max_delay) ∧
    (cfg.jitter = false →
      ∀ n, Retry.calculate_delay cfg n (draws n) = Retry.raw_delay cfg n) ∧
    (cfg.jitter = true →
      ∀ n, 0 ≤ Retry.calculate_delay cfg n (draws n) ∧
        Retry.calculate_delay cfg n (draws n) ≤ Retry.raw_delay cfg n) ∧
    (∀ n, Retry.raw_delay cfg n ≤ Retry.raw_delay cfg (n + 1)) ∧
    (∀ n, Retry.raw_delay cfg n ≤ cfg.max_delay) ∧
    (∀ e0 : E, f 0 = .error e0 → retryable e0 = false →
      Retry.execute cfg retryable f draws
        = { result := .error e0, invocations := 1, delays := [] }) := by
  obtain ⟨hb, hbm, he⟩ := hv
  refine ⟨?_, ?_, ?_, ?_, ?_, ?_, ?_⟩
  · intro hf hr
    have h := executeAux_const_fail cfg retryable f draws e hf hr cfg.max_retries 0
    unfold Retry.execute
    rw [h]
    refine ⟨rfl, by simp, ?_⟩
    simp
  · intro n
    rfl
  · intro hj n
    simp [Retry.calculate_delay, hj]
  · intro hj n
    have hraw : 0 ≤ Retry.raw_delay cfg n := raw_delay_nonneg cfg ⟨hb, hbm, he⟩ n
    constructor
    · simp only [Retry.calculate_delay, hj, if_true]
      exact mul_nonneg (hd n).1 hraw
    · simp only [Retry.calculate_delay, hj, if_true]
      exact mul_le_of_le_one_left hraw (hd n).2
  · intro n
    have h1 : cfg.base_delay * cfg.exponential_base ^ n
        ≤ cfg.base_delay * cfg.exponential_base ^ (n + 1) :=
      mul_le_mul_of_nonneg_left (pow_le_pow_right₀ (le_of_lt he) (Nat.le_succ n))
        (le_of_lt hb)
    exact min_le_min h1 (le_refl _)
  · intro n
    exact min_le_right _ _
  · intro e0 hf0 hr0
    unfold Retry.execute
    rw [Retry.executeAux]
    simp [hf0, hr0]

/-- Witness: for the sample retry configuration (2 retries, base 1, cap
30, exponential base 2, no jitter) and a function that always raises a
retryable exception, execute invokes the function three times, re-raises
the exception, and sleeps the deterministic backoff delays. -/
theorem retry_execute_witness :
    (Retry.execute retryCfgSample (fun _ => true)
        (fun _ => (Except.error 0 : Except ℕ Unit)) (fun _ => 0)).invocations = 3 ∧
    (Retry.execute retryCfgSample (fun _ => true)
        (fun _ => (Except.error 0 : Except ℕ Unit)) (fun _ => 0)).result
      = .error 0 ∧
    (Retry.execute retryCfgSample (fun _ => true)
        (fun _ => (Except.error 0 : Except ℕ Unit)) (fun _ => 0)).delays
      = (List.range 2).map
          (fun n => Retry.calculate_delay retryCfgSample n 0) := by
  have h := retry_execute_spec retryCfgSample (fun _ => true)
    (fun _ => (Except.error 0 : Except ℕ Unit)) (fun _ => 0) (fun _ => 0)
    (by refine ⟨by norm_num [retryCfgSample], by norm_num [retryCfgSample],
          by norm_num [retryCfgSample]⟩)
    (fun n => ⟨le_refl 0, by norm_num⟩)
  have h1 := h.1 (fun i => rfl) (fun i => rfl)
  exact ⟨h1.1, h1.2.1, h1.2.2⟩
